import Mathlib

/-!
Shallow embedding of the entity-validation / referential-integrity core of the
`webapp-group-3` movie CRUD application (assignment6 revision: `src/m/Movie.js`,
`src/m/MovieStorage.js`, `src/m/PersonStorage.js`, the Person entity file and
`lib/util.js`).

Modelling conventions, stated once:
* JavaScript dynamic values appearing in slot bags are modelled by `JsV`
  (undefined, null, integer numbers, strings).  Fractional numbers, symbols,
  and object-valued slots for scalar fields are outside the modelled domain;
  the claims only exercise integer / string / undefined slot values.
* Entity collections (`this._instances`) are JavaScript objects keyed by the
  string coercion of the id.  They are modelled as association lists
  `List (String × α)` whose iteration order follows the JavaScript object key
  order: canonical integer-like keys ascending first, other keys in insertion
  order.  Property assignment on an existing key replaces in place.
* Object references held by entities (Movie._director, Movie._actors values,
  Movie._about) are modelled by the person id they were fetched with; a
  mutation performed through such a reference is applied to the storage entry
  of that id when present, and is a no-op when the entry was deleted (in
  JavaScript the mutation would hit a detached object, invisible to storage).
* Dates are modelled by their epoch-millisecond time value (`Int`); only
  `undefined` or valid dates flow through the modelled scenarios, matching
  `isDateOrDateString` / `parseDate` / `compareDates` on that domain.
* Constraint-violation objects are modelled by their kind only; the message
  strings are irrelevant to every claim.
-/

/-- A JavaScript scalar value as it appears in slot bags and entity fields. -/
inductive JsV where
  | undef : JsV
  | nullV : JsV
  | num : Int → JsV
  | str : String → JsV
deriving DecidableEq, Repr

/-- JavaScript truthiness on `JsV`: `undefined`, `null`, `0` and `""` are falsy. -/
def jsTruthy : JsV → Bool
  | .undef => false
  | .nullV => false
  | .num n => n ≠ 0
  | .str s => s ≠ ""

/-- `String(v)` / `v.toString()` coercion used when a value becomes an object key. -/
def jsToStr : JsV → String
  | .undef => "undefined"
  | .nullV => "null"
  | .num n => toString n
  | .str s => s

/-- The closed constraint-violation taxonomy of `lib/errorTypes.js` (kinds only). -/
inductive Violation where
  | noConstraintViolation
  | mandatoryValue
  | range
  | interval
  | uniqueness
  | referentialIntegrity
  | frozenValue
  | plainConstraint
deriving DecidableEq, Repr

/-- An exception escaping a statement: a thrown constraint violation or a
JavaScript `TypeError` (e.g. a property access on `undefined`/`null`). -/
inductive JsErr where
  | violation : Violation → JsErr
  | typeError : JsErr
deriving DecidableEq, Repr

deriving instance DecidableEq for Except

/-- Decimal digit test for the integer-string regular expression. -/
def isDigitChar (c : Char) : Bool := ('0' ≤ c) && (c ≤ '9')

/-- `util.js isIntegerOrIntegerString` string part: the regex `^-?[0-9]+$`. -/
def isIntString (s : String) : Bool :=
  match s.data with
  | [] => false
  | '-' :: t => t ≠ [] && t.all isDigitChar
  | l => l.all isDigitChar

/-- Numeric value of a digit list (most significant first). -/
def digitsToNat : List Char → Nat
  | [] => 0
  | c :: t => (c.toNat - '0'.toNat) * (10 ^ t.length) + digitsToNat t

/-- Numeric value of an integer string (as accepted by `isIntString`). -/
def strToInt (s : String) : Int :=
  match s.data with
  | '-' :: t => -(digitsToNat t : Int)
  | l => (digitsToNat l : Int)

/-- `util.js isIntegerOrIntegerString`. -/
def isIntegerOrIntegerString : JsV → Bool
  | .num _ => true        -- modelled numbers are integers
  | .str s => isIntString s
  | _ => false

/-- `util.js parseStringInteger`, on values that passed
`isIntegerOrIntegerString` (the only places the model reads the result). -/
def intValOfJs : JsV → Int
  | .num n => n
  | .str s => strToInt s
  | _ => 0

/-- The underlying string of a value known to be a string (guarded by
`typeof x === "string"` checks before every use). -/
def strValOf : JsV → String
  | .str s => s
  | _ => ""

/-- `String.prototype.trim`: strip leading and trailing whitespace
(structurally, over the character list). -/
def jsTrim (s : String) : String :=
  String.mk (((s.data.dropWhile Char.isWhitespace).reverse.dropWhile
    Char.isWhitespace).reverse)

/-- `util.js isStringInRange`: `str.length >= min && str.length < max`
(`max` is `Number.MAX_VALUE` when omitted, modelled by `none`). -/
def isStringInRange (s : String) (min : Nat) (max : Option Nat) : Bool :=
  min ≤ s.length && (match max with | some M => s.length < M | none => true)

/-- `new Date("1895-12-28").getTime()` in epoch milliseconds. -/
def minReleaseTime : Int := -2335564800000

/-- `util.js compareDates` on the modelled domain (undefined or a valid date). -/
def compareDates : Option Int → Option Int → Int
  | none, none => 0
  | none, some _ => -2
  | some _, none => 2
  | some a, some b => if a = b then 0 else if a > b then 1 else -1

/-! ### Association lists with JavaScript object key order -/

/-- Canonical non-negative integer key (a JavaScript array-index-like key):
digits only, no leading zero except `"0"` itself. -/
def canonNat? (s : String) : Option Nat :=
  match s.data with
  | [] => none
  | l =>
    if l.all isDigitChar && (l.head? ≠ some '0' || l.length = 1) then
      some (digitsToNat l)
    else none

/-- Key list (`Object.keys`). -/
def keysA {α : Type} (l : List (String × α)) : List String := l.map Prod.fst

/-- Property read (`obj[k]`). -/
def lookupA {α : Type} : List (String × α) → String → Option α
  | [], _ => none
  | (k0, v0) :: t, k => if k0 = k then some v0 else lookupA t k

/-- `Object.keys(obj).includes(k)`. -/
def containsKeyA {α : Type} (l : List (String × α)) (k : String) : Bool :=
  (keysA l).contains k

/-- Replace the value at an existing key, in place. -/
def replaceA {α : Type} : List (String × α) → String → α → List (String × α)
  | [], _, _ => []
  | (k0, v0) :: t, k, v => if k0 = k then (k, v) :: t else (k0, v0) :: replaceA t k v

/-- Whether a fresh key `k` is enumerated before an existing key `k0`:
integer-like keys come first, ascending. -/
def keyBefore (k k0 : String) : Bool :=
  match canonNat? k, canonNat? k0 with
  | some n, some n0 => n < n0
  | some _, none => true
  | none, _ => false

/-- Insert a fresh key at its enumeration position. -/
def insertNewA {α : Type} : List (String × α) → String → α → List (String × α)
  | [], k, v => [(k, v)]
  | (k0, v0) :: t, k, v =>
    if keyBefore k k0 then (k, v) :: (k0, v0) :: t
    else (k0, v0) :: insertNewA t k v

/-- Property assignment `obj[k] = v`. -/
def insertA {α : Type} (l : List (String × α)) (k : String) (v : α) : List (String × α) :=
  if containsKeyA l k then replaceA l k v else insertNewA l k v

/-- `delete obj[k]`. -/
def eraseA {α : Type} : List (String × α) → String → List (String × α)
  | [], _ => []
  | (k0, v0) :: t, k => if k0 = k then t else (k0, v0) :: eraseA t k

/-- Mutation through an object reference fetched at key `k`: applied to the
storage entry when present, invisible when the entry was deleted. -/
def updateA {α : Type} : List (String × α) → String → (α → α) → List (String × α)
  | [], _, _ => []
  | (k0, v0) :: t, k, f =>
    if k0 = k then (k0, f v0) :: updateA t k f else (k0, v0) :: updateA t k f

theorem lookupA_isSome_of_containsKeyA {α : Type} (l : List (String × α)) (k : String)
    (h : containsKeyA l k = true) : (lookupA l k).isSome := by
  induction l with
  | nil => simp [containsKeyA, keysA] at h
  | cons hd t ih =>
    obtain ⟨k0, v0⟩ := hd
    simp only [containsKeyA, keysA, List.map_cons, List.contains_cons] at h
    by_cases hk : k0 = k
    · simp [lookupA, hk]
    · simp only [lookupA, hk, if_false]
      apply ih
      simp only [containsKeyA, keysA]
      rcases (Bool.or_eq_true _ _).mp h with h1 | h2
      · exact absurd (beq_iff_eq.mp h1).symm hk
      · exact h2

theorem lookupA_updateA_self {α : Type} (l : List (String × α)) (k : String) (f : α → α) :
    lookupA (updateA l k f) k = (lookupA l k).map f := by
  induction l with
  | nil => simp [lookupA, updateA]
  | cons hd t ih =>
    obtain ⟨k0, v0⟩ := hd
    by_cases hk : k0 = k
    · simp [lookupA, updateA, hk]
    · simp [lookupA, updateA, hk, ih]

theorem lookupA_updateA_ne {α : Type} (l : List (String × α)) (k k2 : String) (f : α → α)
    (h : k ≠ k2) : lookupA (updateA l k f) k2 = lookupA l k2 := by
  induction l with
  | nil => simp [lookupA, updateA]
  | cons hd t ih =>
    obtain ⟨k0, v0⟩ := hd
    by_cases hk : k0 = k
    · subst hk
      simp only [updateA, if_pos rfl, lookupA]
      rw [if_neg h, if_neg h]
      exact ih
    · simp only [updateA, if_neg hk, lookupA]
      by_cases hk2 : k0 = k2
      · simp [hk2]
      · simp [hk2, ih]

theorem lookupA_replaceA_self {α : Type} (l : List (String × α)) (k : String) (v : α)
    (h : containsKeyA l k = true) : lookupA (replaceA l k v) k = some v := by
  induction l with
  | nil => simp [containsKeyA, keysA] at h
  | cons hd t ih =>
    obtain ⟨k0, v0⟩ := hd
    by_cases hk : k0 = k
    · simp [replaceA, hk, lookupA]
    · simp only [replaceA, if_neg hk, lookupA]
      apply ih
      simp only [containsKeyA, keysA, List.map_cons, List.contains_cons] at h
      rcases (Bool.or_eq_true _ _).mp h with h1 | h2
      · exact absurd (beq_iff_eq.mp h1).symm hk
      · exact h2

theorem lookupA_insertNewA_self {α : Type} (l : List (String × α)) (k : String) (v : α)
    (h : containsKeyA l k = false) : lookupA (insertNewA l k v) k = some v := by
  induction l with
  | nil => simp [insertNewA, lookupA]
  | cons hd t ih =>
    obtain ⟨k0, v0⟩ := hd
    simp only [containsKeyA, keysA, List.map_cons, List.contains_cons,
      Bool.or_eq_false_iff] at h
    simp only [insertNewA]
    by_cases hb : keyBefore k k0 = true
    · simp [hb, lookupA]
    · simp only [hb, if_false, lookupA]
      have hk : k0 ≠ k := by
        intro he
        rw [he] at h
        simp at h
      rw [if_neg hk]
      apply ih
      simp only [containsKeyA, keysA]
      exact h.2

theorem lookupA_insertA_self {α : Type} (l : List (String × α)) (k : String) (v : α) :
    lookupA (insertA l k v) k = some v := by
  unfold insertA
  by_cases h : containsKeyA l k = true
  · rw [if_pos h]
    exact lookupA_replaceA_self l k v h
  · rw [if_neg h]
    exact lookupA_insertNewA_self l k v (by simpa using h)

/-! ### Person entity (assignment6 revision)

`PersonTypeEL = new Enumeration(["Director", "Actor", "Agent"])`.
`lib/Enumeration.js` is not part of the sources; modelled from the spec:
a labeled-integer enum assigning successive integers starting at 1 to the
labels, with `MAX` the number of labels.  The enum object has no numeric
keys, so an indexed access `PersonTypeEL[cat]` with a number yields
`undefined`. -/

/-- `PersonTypeEL.MAX`. -/
def personTypeMax : Int := 3

/-- The Person entity object.  The constructor stores the raw slot values, so
the fields hold arbitrary dynamic values (`_personId`, `_name`, `_agent`) and
a number list (`_categories`). -/
structure PersonObj where
  personId : JsV
  name : JsV
  categories : List Int
  agent : JsV
deriving DecidableEq, Repr

/-- The slot bag `{personId, name, categories, agent}` of the Person
constructor. -/
structure PersonSlots where
  personId : JsV
  name : JsV
  categories : Option (List Int)
  agent : JsV
deriving DecidableEq, Repr

/-- `Person` constructor: assigns the raw slots to the private fields
directly (no setter, hence no validation); missing `categories` becomes `[]`,
falsy `agent` becomes `null`. -/
def personConstruct (sl : PersonSlots) : PersonObj :=
  { personId := sl.personId
    name := sl.name
    categories := sl.categories.getD []
    agent := if jsTruthy sl.agent then sl.agent else .nullV }

namespace Person

/-- `Person.checkPersonId`: present (`!personId && personId !== 0`), integer,
and `parseStringInteger(personId) < 0` rejected (note: `0` passes this test). -/
def checkPersonId (personId : JsV) : Violation :=
  if ¬ jsTruthy personId ∧ personId ≠ .num 0 then .mandatoryValue
  else if ¬ isIntegerOrIntegerString personId then .range
  else if intValOfJs personId < 0 then .interval
  else .noConstraintViolation

/-- `PersonStorage.contains`: `Object.keys(this._instances).includes(personId.toString())`. -/
def storageContains (ps : List (String × PersonObj)) (personId : JsV) : Bool :=
  containsKeyA ps (jsToStr personId)

/-- `Person.checkPersonIdAsIdRef`: a valid id that must exist in the
Person collection. -/
def checkPersonIdAsIdRef (personId : JsV) (ps : List (String × PersonObj)) : Violation :=
  match checkPersonId personId with
  | .noConstraintViolation =>
    if ¬ storageContains ps personId then .referentialIntegrity
    else .noConstraintViolation
  | r => r

/-- `Person.checkName`: present, a string, and
`isStringInRange(name.trim(), 1)` (no upper bound in this revision). -/
def checkName (name : JsV) : Violation :=
  if ¬ jsTruthy name then .mandatoryValue
  else if (match name with | .str _ => false | _ => true) then .range
  else if ¬ isStringInRange (jsTrim (strValOf name)) 1 none then .interval
  else .noConstraintViolation

/-- `Person.checkCategory` on the coerced numeric category: falsy (0) passes;
otherwise must lie in `[1, PersonTypeEL.MAX]`. -/
def checkCategory (c : Int) : Violation :=
  if c ≠ 0 then
    if c < 1 ∨ c > personTypeMax then .range else .noConstraintViolation
  else .noConstraintViolation

/-- `Person.addCategory`: on a valid category, push it if not already
present; an invalid category is silently ignored (the violation is returned,
not thrown). -/
def addCategory (c : Int) (cats : List Int) : List Int :=
  match checkCategory c with
  | .noConstraintViolation => if cats.contains c then cats else cats ++ [c]
  | _ => cats

/-- `Array.prototype.splice(indexOf(c), 1)`: removes the first occurrence of
`c`, and removes the LAST element when `c` is absent (`indexOf` is `-1`). -/
def spliceIndexOf (cats : List Int) (c : Int) : List Int :=
  if cats.contains c then cats.erase c else cats.dropLast

/-- `Person.removeCategory`: throws the violation for an invalid category;
otherwise the guard `!includes(PersonTypeEL[cat])` always holds (the enum has
no numeric keys, so it tests membership of `undefined` in a number list) and
the splice runs. -/
def removeCategory (c : Int) (cats : List Int) : Except JsErr (List Int) :=
  match checkCategory c with
  | .noConstraintViolation => .ok (spliceIndexOf cats c)
  | v => .error (.violation v)

/-- `Person.checkAgent`: falsy clears; otherwise the id must reference an
existing person. -/
def checkAgent (agent : JsV) (ps : List (String × PersonObj)) : Violation :=
  if jsTruthy agent then checkPersonIdAsIdRef agent ps else .noConstraintViolation

/-- Whether `Person.prototype.toString` throws: it dereferences
`PersonStorage.instances[this.agent]._name` when `_agent` is truthy, a
`TypeError` when that entry does not exist. -/
def toStringThrows (p : PersonObj) (ps : List (String × PersonObj)) : Bool :=
  jsTruthy p.agent && (lookupA ps (jsToStr p.agent)).isNone

end Person

/-! ### Movie entity (assignment6 `src/m/Movie.js`)

`MovieCategoryEL = new Enumeration(["Biography", "TvSeriesEpisode"])`.
Modelled from the spec (`lib/Enumeration.js` is not in the sources): the
labeled-integer enum Biography = 1, TvSeriesEpisode = 2, `MAX` = 2; the label
lookups `MovieCategoryEL["BIOGRAPHY"]` and `MovieCategoryEL["TvSeriesEpisode"]`
used by the source denote 1 and 2. -/

/-- `MovieCategoryEL.MAX`. -/
def movieCategoryMax : Int := 2

/-- The dynamic value of the private `_category` field: undefined before the
first assignment, and afterwards the result of `parseStringInteger` on the
assigned value (`NaN` when the constructor stored an undefined slot). -/
inductive CatVal where
  | undefV : CatVal
  | nanV : CatVal
  | numV : Int → CatVal
deriving DecidableEq, Repr

/-- JavaScript truthiness of the `_category` value (`NaN` and `0` are falsy). -/
def catTruthy : CatVal → Bool
  | .numV n => n ≠ 0
  | _ => false

/-- `util.js parseStringInteger` on a raw dynamic value (`Number` semantics on
the modelled domain: `Number(null) = 0`, `Number(undefined) = NaN`,
non-numeric strings give `NaN`). -/
def parseNumJs : JsV → CatVal
  | .num n => .numV n
  | .str s => if isIntString s then .numV (strToInt s) else .nanV
  | .nullV => .numV 0
  | .undef => .nanV

/-- `parseStringInteger(this.category)` as used by the dependent-field checks:
an unassigned (undefined) category parses to `NaN`. -/
def catParsed : CatVal → CatVal
  | .undefV => .nanV
  | c => c

/-- The Movie entity object.  `_director`, the `_actors` map values and
`_about` hold Person object references, modelled by the person id they were
fetched with; `_actors` is modelled by its ascending key list. -/
structure MovieObj where
  movieId : Int
  title : String
  releaseDate : Option Int
  director : Nat
  actors : List Nat
  category : CatVal
  about : Option Nat
  tvSeriesName : Option String
  episodeNo : Option Int
deriving DecidableEq, Repr

/-- An argument accepted by `addActor` / `removeActor`: an id reference or a
Person object reference (normalized via `actor.personId`). -/
inductive ActorArg where
  | byId : JsV → ActorArg
  | byRef : PersonObj → ActorArg
deriving DecidableEq, Repr

/-- `typeof actor !== "object" ? actor : actor.personId`. -/
def actorIdOf : ActorArg → JsV
  | .byId v => v
  | .byRef p => p.personId

/-- Numeric key of a validated id value (canonical decimal forms only, the
shape every id that passes a `contains` check has in the modelled states). -/
def natKeyOf (v : JsV) : Nat := (intValOfJs v).toNat

/-- Sorted-insert into the ascending key list of the `_actors` map. -/
def actorsInsert : List Nat → Nat → List Nat
  | [], k => [k]
  | h :: t, k =>
    if k = h then h :: t
    else if k < h then k :: h :: t
    else h :: actorsInsert t k

namespace Movie

/-- `MovieStorage.contains`: `Object.keys(this._instances).includes(movieId.toString())`. -/
def storageContains (ms : List (String × MovieObj)) (movieId : JsV) : Bool :=
  containsKeyA ms (jsToStr movieId)

/-- `Movie.checkMovieId`: present, integer, `parseStringInteger(movieId) < 0`
rejected (`0` passes this test), and unique in the collection. -/
def checkMovieId (movieId : JsV) (ms : List (String × MovieObj)) : Violation :=
  if ¬ jsTruthy movieId ∧ movieId ≠ .num 0 then .mandatoryValue
  else if ¬ isIntegerOrIntegerString movieId then .range
  else if intValOfJs movieId < 0 then .interval
  else if storageContains ms movieId then .uniqueness
  else .noConstraintViolation

/-- `Movie.checkTitle`: present, a string, trimmed length in `[1, 120)`
(`isStringInRange(title.trim(), 1, 120)` is strict at the upper bound). -/
def checkTitle (title : JsV) : Violation :=
  if ¬ jsTruthy title then .mandatoryValue
  else if (match title with | .str _ => false | _ => true) then .range
  else if ¬ isStringInRange (jsTrim (strValOf title)) 1 (some 120) then .interval
  else .noConstraintViolation

/-- `Movie.checkReleaseDate`: must be a date (undefined is NOT accepted in
this revision) and on/after 1895-12-28. -/
def checkReleaseDate (date : Option Int) : Violation :=
  match date with
  | none => .range
  | some t => if t < minReleaseTime then .interval else .noConstraintViolation

/-- `Movie.checkDirector = Person.checkPersonIdAsIdRef`. -/
def checkDirector (directorId : JsV) (ps : List (String × PersonObj)) : Violation :=
  Person.checkPersonIdAsIdRef directorId ps

/-- `Movie.checkActor = Person.checkPersonIdAsIdRef`. -/
def checkActor (actorId : JsV) (ps : List (String × PersonObj)) : Violation :=
  Person.checkPersonIdAsIdRef actorId ps

/-- `Movie.checkCategory`: falsy is fine (optional), else integer in
`[1, MovieCategoryEL.MAX]`. -/
def checkCategory (category : JsV) : Violation :=
  if ¬ jsTruthy category then .noConstraintViolation
  else if ¬ isIntegerOrIntegerString category then .range
  else if intValOfJs category < 1 ∨ intValOfJs category > movieCategoryMax then .interval
  else .noConstraintViolation

/-- `Movie.checkAbout(about_id, movieCategory)`: mandatory for a Biography,
forbidden otherwise, and when given it must reference an existing person. -/
def checkAbout (aboutId : Option Nat) (cat : CatVal)
    (ps : List (String × PersonObj)) : Violation :=
  let c := catParsed cat
  let truthyAb : Bool := match aboutId with | some n => n ≠ 0 | none => false
  if c = .numV 1 ∧ truthyAb = false then .mandatoryValue
  else if c ≠ .numV 1 ∧ truthyAb = true then .plainConstraint
  else if truthyAb = true then Person.checkPersonIdAsIdRef (.num (aboutId.getD 0)) ps
  else .noConstraintViolation

/-- `Movie.checkTvSeriesName(tvSeriesName, movieCategory)`: mandatory for a
TvSeriesEpisode, forbidden otherwise; the final branch evaluates
`tvSeriesName.trim()`, a `TypeError` when `tvSeriesName` is undefined. -/
def checkTvSeriesName (tv : Option String) (cat : CatVal) : Except JsErr Violation :=
  let c := catParsed cat
  let truthyTv : Bool := match tv with | some s => s ≠ "" | none => false
  if c = .numV 2 ∧ truthyTv = false then .ok .mandatoryValue
  else if c ≠ .numV 2 ∧ truthyTv = true then .ok .plainConstraint
  else
    match tv with
    | none => .error .typeError
    | some s =>
      if ¬ isStringInRange (jsTrim s) 1 none then .ok .interval
      else .ok .noConstraintViolation

/-- `Movie.checkEpisodeNo(episodeNo, movieCategory)`: mandatory for a
TvSeriesEpisode, forbidden otherwise, integer, `< 0` rejected. -/
def checkEpisodeNo (episodeNo : JsV) (cat : CatVal) : Violation :=
  let c := catParsed cat
  if c = .numV 2 ∧ ¬ jsTruthy episodeNo then .mandatoryValue
  else if c ≠ .numV 2 ∧ jsTruthy episodeNo then .plainConstraint
  else if ¬ isIntegerOrIntegerString episodeNo then .range
  else if intValOfJs episodeNo < 0 then .interval
  else .noConstraintViolation

end Movie

/-- The category setter on the `_category` value: once the current value is
truthy, ANY further assignment throws `FrozenValueConstraintViolation`
(the guard is `this.category ? frozen : checkCategory(category)` and does not
compare the new value with the current one); otherwise the checked value is
stored via `parseStringInteger`. -/
def setCategoryVal (category : JsV) (cur : CatVal) : Except JsErr CatVal :=
  if catTruthy cur then .error (.violation .frozenValue)
  else
    match Movie.checkCategory category with
    | .noConstraintViolation => .ok (parseNumJs category)
    | v => .error (.violation v)

/-- `Movie.set category` on a movie object. -/
def movieSetCategory (m : MovieObj) (category : JsV) : Except JsErr MovieObj :=
  (setCategoryVal category m.category).map (fun c => { m with category := c })

/-! ### Actor operations and the Movie constructor -/

/-- Result of an iteration that mutates the actors map and the Person
collection and may throw out of the loop: on a throw the mutations performed
so far persist. -/
inductive IterRes where
  | ok : List Nat → List (String × PersonObj) → IterRes
  | err : JsErr → List Nat → List (String × PersonObj) → IterRes
deriving DecidableEq, Repr

/-- `Movie.addActor`: validates the id, then stores the person reference under
`String(actor_id)` and tags the person with category 1 ("Actor").  When the id
is falsy or the check fails, the validation result is thrown (even when it is
a `NoConstraintViolation`). -/
def addActorStep (actors : List Nat) (a : ActorArg) (ps : List (String × PersonObj)) :
    Except JsErr (List Nat × List (String × PersonObj)) :=
  let aid := actorIdOf a
  let v := Movie.checkActor aid ps
  if jsTruthy aid ∧ v = .noConstraintViolation then
    .ok (actorsInsert actors (natKeyOf aid),
      updateA ps (jsToStr aid)
        (fun p => { p with categories := Person.addCategory 1 p.categories }))
  else .error (.violation v)

/-- `Movie.removeActor`: validates the id, deletes the actors-map entry at
`String(actor_id)`, and then calls `addCategory(1)` on the person — NOT
`removeCategory` — so the "Actor" tag is added (or kept), never removed. -/
def removeActorStep (actors : List Nat) (a : ActorArg) (ps : List (String × PersonObj)) :
    Except JsErr (List Nat × List (String × PersonObj)) :=
  let aid := actorIdOf a
  match Movie.checkActor aid ps with
  | .noConstraintViolation =>
    .ok (actors.erase (natKeyOf aid),
      updateA ps (jsToStr aid)
        (fun p => { p with categories := Person.addCategory 1 p.categories }))
  | v => .error (.violation v)

/-- `Movie.addActors` over an array argument (the id-keyed-map variant is
normalized to the same element-wise `addActor` calls). -/
def addActorsIter : List ActorArg → List Nat → List (String × PersonObj) → IterRes
  | [], actors, ps => .ok actors ps
  | a :: t, actors, ps =>
    match addActorStep actors a ps with
    | .ok (actors2, ps2) => addActorsIter t actors2 ps2
    | .error e => .err e actors ps

/-- `Movie.removeActors` over an array argument. -/
def removeActorsIter : List ActorArg → List Nat → List (String × PersonObj) → IterRes
  | [], actors, ps => .ok actors ps
  | a :: t, actors, ps =>
    match removeActorStep actors a ps with
    | .ok (actors2, ps2) => removeActorsIter t actors2 ps2
    | .error e => .err e actors ps

/-- `Movie.addActor` at the movie-object level. -/
def movieAddActor (m : MovieObj) (a : ActorArg) (ps : List (String × PersonObj)) :
    Except JsErr (MovieObj × List (String × PersonObj)) :=
  (addActorStep m.actors a ps).map (fun r => ({ m with actors := r.1 }, r.2))

/-- `Movie.removeActor` at the movie-object level. -/
def movieRemoveActor (m : MovieObj) (a : ActorArg) (ps : List (String × PersonObj)) :
    Except JsErr (MovieObj × List (String × PersonObj)) :=
  (removeActorStep m.actors a ps).map (fun r => ({ m with actors := r.1 }, r.2))

/-- The creation slot bag of a Movie. -/
structure MovieSlots where
  movieId : JsV
  title : JsV
  releaseDate : Option Int
  director : JsV
  actors : Option (List ActorArg)
  category : JsV
  about : Option Nat
  tvSeriesName : Option String
  episodeNo : JsV
deriving DecidableEq, Repr

/-- Result of the Movie constructor: the Person-collection mutations performed
by `addActors` persist even when a later setter throws. -/
inductive CtorRes where
  | ok : MovieObj → List (String × PersonObj) → CtorRes
  | err : JsErr → List (String × PersonObj) → CtorRes
deriving DecidableEq, Repr

/-- The `Movie` constructor: runs the setters in source order — movieId,
title, releaseDate, director, actors (`actors ?? []`), category, about,
tvSeriesName, episodeNo — throwing at the first violated constraint. -/
def movieNew (sl : MovieSlots) (ms : List (String × MovieObj))
    (ps0 : List (String × PersonObj)) : CtorRes :=
  match Movie.checkMovieId sl.movieId ms with
  | .noConstraintViolation =>
    let mid := intValOfJs sl.movieId
    match Movie.checkTitle sl.title with
    | .noConstraintViolation =>
      let ttl := jsTrim (strValOf sl.title)
      match Movie.checkReleaseDate sl.releaseDate with
      | .noConstraintViolation =>
        match Movie.checkDirector sl.director ps0 with
        | .noConstraintViolation =>
          let dir := natKeyOf sl.director
          match addActorsIter (sl.actors.getD []) [] ps0 with
          | .err e _ ps1 => .err e ps1
          | .ok actors1 ps1 =>
            match setCategoryVal sl.category .undefV with
            | .error e => .err e ps1
            | .ok cat =>
              match Movie.checkAbout sl.about cat ps1 with
              | .noConstraintViolation =>
                -- `this._about = PersonStorage.instances[about_id]`
                let ab : Option Nat :=
                  match sl.about with
                  | some n => if (lookupA ps1 (toString n)).isSome then some n else none
                  | none => none
                match Movie.checkTvSeriesName sl.tvSeriesName cat with
                | .error e => .err e ps1
                | .ok .noConstraintViolation =>
                  let tv := sl.tvSeriesName.map jsTrim
                  match Movie.checkEpisodeNo sl.episodeNo cat with
                  | .noConstraintViolation =>
                    .ok { movieId := mid, title := ttl, releaseDate := sl.releaseDate,
                          director := dir, actors := actors1, category := cat,
                          about := ab, tvSeriesName := tv,
                          episodeNo := some (intValOfJs sl.episodeNo) } ps1
                  | v => .err (.violation v) ps1
                | .ok v => .err (.violation v) ps1
              | v => .err (.violation v) ps1
        | v => .err (.violation v) ps0
      | v => .err (.violation v) ps0
    | v => .err (.violation v) ps0
  | v => .err (.violation v) ps0

/-! ### Movie serialization -/

/-- The JSON record `Movie.prototype.toJSON` produces: `_director` becomes the
director's personId, `_actors` the list of actor ids (keys parsed back to
integers), the other underscore fields keep their values (`undefined` fields
are dropped and a `NaN` category becomes `null` in the JSON text, both
modelled by `none`). -/
structure MovieRec where
  movieId : Int
  title : String
  releaseDate : Option Int
  director : Nat
  actors : List Nat
  category : Option Int
  about : Option Nat
  tvSeriesName : Option String
  episodeNo : Option Int
deriving DecidableEq, Repr

/-- `Movie.prototype.toJSON`. -/
def movieToJSON (m : MovieObj) : MovieRec :=
  { movieId := m.movieId, title := m.title, releaseDate := m.releaseDate,
    director := m.director, actors := m.actors,
    category := match m.category with | .numV n => some n | _ => none,
    about := m.about, tvSeriesName := m.tvSeriesName, episodeNo := m.episodeNo }

/-- `Movie.deserialize`: constructs a new Movie from ONLY the slots
`movieId, title, releaseDate, director, actors` of the stored record (the
category-dependent fields are not passed), catching any exception and
returning `null` instead; Person-collection side effects of `addActors`
persist either way. -/
def movieDeserialize (rec : MovieRec) (ms : List (String × MovieObj))
    (ps : List (String × PersonObj)) : Option MovieObj × List (String × PersonObj) :=
  match movieNew
      { movieId := .num rec.movieId, title := .str rec.title,
        releaseDate := rec.releaseDate, director := .num rec.director,
        actors := some (rec.actors.map (fun n => .byId (.num n))),
        category := .undef, about := none, tvSeriesName := none,
        episodeNo := .undef } ms ps with
  | .ok m ps2 => (some m, ps2)
  | .err _ ps2 => (none, ps2)

/-! ### The storage singletons

The two repository singletons and the persistent-store mirror are combined in
one state record; `_nextId` starts at 0 in both repositories. -/

/-- The joint state of `MovieStorage` and `PersonStorage`. -/
structure DB where
  movies : List (String × MovieObj)
  persons : List (String × PersonObj)
  movieNextId : Int
  personNextId : Int
deriving DecidableEq, Repr

/-- Whether `toString` of the person stored at `key` would throw (detached
objects — absent keys — have untracked fields and are modelled as printing
without an agent dereference). -/
def personAgentHazardAt (ps : List (String × PersonObj)) (key : String) : Bool :=
  match lookupA ps key with
  | some p => Person.toStringThrows p ps
  | none => false

/-- Whether `Movie.prototype.toString` throws: it stringifies the director
person (which dereferences that person's agent when truthy), and for a
Biography it stringifies `this._about` (a `TypeError` when that is
undefined). -/
def movieToStringThrows (m : MovieObj) (ps : List (String × PersonObj)) : Bool :=
  personAgentHazardAt ps (toString m.director) ||
  (match m.category with
   | .numV 1 =>
     (match m.about with
      | none => true
      | some a => personAgentHazardAt ps (toString a))
   | _ => false)

/-- `MovieStorage.add`: constructs the movie, catching any exception (the
Person-collection side effects of `addActors` persist); on success stores it
under `String(movie.movieId)`, sets `_nextId` to `movieId + 1`, and logs via
`movie.toString()` (which can itself throw a `TypeError`). -/
def movieStorageAdd (sl : MovieSlots) (db : DB) : DB × Option JsErr :=
  match movieNew sl db.movies db.persons with
  | .err _ ps1 => ({ db with persons := ps1 }, none)
  | .ok m ps1 =>
    let db1 : DB :=
      { db with
        movies := insertA db.movies (toString m.movieId) m
        persons := ps1
        movieNextId := m.movieId + 1 }
    if movieToStringThrows m db1.persons then (db1, some .typeError) else (db1, none)

/-- The slot bag of `MovieStorage.update`. -/
structure MovieUpdateSlots where
  movieId : JsV
  title : JsV
  releaseDate : Option Int
  director : JsV
  actorsToAdd : Option (List ActorArg)
  actorsToRemove : Option (List ActorArg)
  category : JsV
  about : Option Nat
  episodeNo : JsV
  tvSeriesName : Option String
deriving DecidableEq, Repr

/-- Result of the `try` body of `MovieStorage.update`: on a throw, the
actors-map content and the Person collection at the moment of the throw are
reported, because the pre-update snapshot produced by `cloneObject` shares
the `_actors` object with the live movie (util.js copies object-valued
properties by reference) and Person mutations are never rolled back. -/
inductive UpdRes where
  | ok : MovieObj → List (String × PersonObj) → UpdRes
  | err : JsErr → List Nat → List (String × PersonObj) → UpdRes
deriving DecidableEq, Repr

/-- update step: `if (movie.title !== title) movie.title = title`. -/
def updTitle (sl : MovieUpdateSlots) (m : MovieObj) : Except JsErr MovieObj :=
  if sl.title = .str m.title then .ok m
  else
    match Movie.checkTitle sl.title with
    | .noConstraintViolation => .ok { m with title := jsTrim (strValOf sl.title) }
    | v => .error (.violation v)

/-- update step: `if (compareDates(releaseDate, movie.releaseDate) !== 0)`. -/
def updDate (sl : MovieUpdateSlots) (m : MovieObj) : Except JsErr MovieObj :=
  if compareDates sl.releaseDate m.releaseDate = 0 then .ok m
  else
    match Movie.checkReleaseDate sl.releaseDate with
    | .noConstraintViolation => .ok { m with releaseDate := sl.releaseDate }
    | v => .error (.violation v)

/-- `removeCategory(c)` through an object reference at `key`: mutates the
storage entry when present (a detached object is invisible). -/
def removeCatAt (ps : List (String × PersonObj)) (key : String) (c : Int) :
    Except JsErr (List (String × PersonObj)) :=
  match lookupA ps key with
  | none => .ok ps
  | some p =>
    (Person.removeCategory c p.categories).map
      (fun cs => updateA ps key (fun q => { q with categories := cs }))

/-- update step for the director (id-reference argument):
`director !== movie.director.personId` guards; on a change the old director
loses category 0, the setter validates the new id, and the new director gains
category 0. -/
def updDirector (sl : MovieUpdateSlots) (m : MovieObj)
    (ps : List (String × PersonObj)) :
    Except JsErr MovieObj × List (String × PersonObj) :=
  if sl.director = .num (m.director : Int) then (.ok m, ps)
  else
    match removeCatAt ps (toString m.director) 0 with
    | .error e => (.error e, ps)
    | .ok ps1 =>
      match Movie.checkDirector sl.director ps1 with
      | .noConstraintViolation =>
        let d2 := natKeyOf sl.director
        (.ok { m with director := d2 },
         updateA ps1 (toString d2)
           (fun q => { q with categories := Person.addCategory 0 q.categories }))
      | v => (.error (.violation v), ps1)

/-- update step for the category block of `MovieStorage.update`:
truthy slot — assign when the stored category is still `undefined`, accept a
strictly-equal value, and throw `FrozenValueConstraintViolation` otherwise;
empty-string slot — always throw (`"category" in movie` is always true
because the `category` accessor is inherited from `Movie.prototype`). -/
def updateCategoryStep (category : JsV) (cur : CatVal) : Except JsErr CatVal :=
  if jsTruthy category then
    match cur with
    | .undefV => setCategoryVal category .undefV
    | _ =>
      let sameVal : Bool := match cur with | .numV n => category == .num n | _ => false
      if sameVal then .ok cur
      else .error (.violation .frozenValue)
  else if category = .str "" then .error (.violation .frozenValue)
  else .ok cur

/-- update step: `if (movie.about !== about) movie.about = about` (object
references compared by identity, which for instances of the Person collection
coincides with id equality). -/
def updAbout (sl : MovieUpdateSlots) (m : MovieObj)
    (ps : List (String × PersonObj)) : Except JsErr MovieObj :=
  if sl.about = m.about then .ok m
  else
    match Movie.checkAbout sl.about m.category ps with
    | .noConstraintViolation =>
      .ok { m with about :=
        match sl.about with
        | some n => if (lookupA ps (toString n)).isSome then some n else none
        | none => none }
    | v => .error (.violation v)

/-- Strict comparison of a slot value with a stored optional number field. -/
def jsEqOptInt (v : JsV) (o : Option Int) : Bool :=
  match v, o with
  | .num n, some k => n = k
  | .undef, none => true
  | _, _ => false

/-- update step: `if (movie.episodeNo !== episodeNo) movie.episodeNo = episodeNo`. -/
def updEpisodeNo (sl : MovieUpdateSlots) (m : MovieObj) : Except JsErr MovieObj :=
  if jsEqOptInt sl.episodeNo m.episodeNo then .ok m
  else
    match Movie.checkEpisodeNo sl.episodeNo m.category with
    | .noConstraintViolation => .ok { m with episodeNo := some (intValOfJs sl.episodeNo) }
    | v => .error (.violation v)

/-- update step: `if (movie.tvSeriesName !== tvSeriesName)`. -/
def updTv (sl : MovieUpdateSlots) (m : MovieObj) : Except JsErr MovieObj :=
  if sl.tvSeriesName = m.tvSeriesName then .ok m
  else
    match Movie.checkTvSeriesName sl.tvSeriesName m.category with
    | .error e => .error e
    | .ok .noConstraintViolation => .ok { m with tvSeriesName := sl.tvSeriesName.map jsTrim }
    | .ok v => .error (.violation v)

/-- The `try` body of `MovieStorage.update`, in source order: title,
releaseDate, director, actorsToAdd, actorsToRemove, category, about,
episodeNo, tvSeriesName. -/
def movieUpdateTry (m0 : MovieObj) (sl : MovieUpdateSlots)
    (ps0 : List (String × PersonObj)) : UpdRes :=
  match updTitle sl m0 with
  | .error e => .err e m0.actors ps0
  | .ok m1 =>
  match updDate sl m1 with
  | .error e => .err e m1.actors ps0
  | .ok m2 =>
  match updDirector sl m2 ps0 with
  | (.error e, ps1) => .err e m2.actors ps1
  | (.ok m3, ps1) =>
  match (match sl.actorsToAdd with
         | some l => addActorsIter l m3.actors ps1
         | none => .ok m3.actors ps1) with
  | .err e acts ps2 => .err e acts ps2
  | .ok acts1 ps2 =>
  -- the live movie is now { m3 with actors := acts1 }
  match (match sl.actorsToRemove with
         | some l => removeActorsIter l acts1 ps2
         | none => .ok acts1 ps2) with
  | .err e acts ps3 => .err e acts ps3
  | .ok acts2 ps3 =>
  -- the live movie is now { m3 with actors := acts2 }
  match updateCategoryStep sl.category m3.category with
  | .error e => .err e acts2 ps3
  | .ok cat1 =>
  match updAbout sl { m3 with actors := acts2, category := cat1 } ps3 with
  | .error e => .err e acts2 ps3
  | .ok m7 =>
  match updEpisodeNo sl m7 with
  | .error e => .err e m7.actors ps3
  | .ok m8 =>
  match updTv sl m8 with
  | .error e => .err e m8.actors ps3
  | .ok m9 => .ok m9 ps3

/-- `MovieStorage.update`: looks the movie up by `slots.movieId` — when
absent, `cloneObject(undefined)` throws a `TypeError` BEFORE the `try` block,
so the exception reaches the caller.  When present, the snapshot is taken
(scalar fields by value, the actors map by reference), the diff is applied,
and on any throw inside the body the snapshot object is put back: its scalar
fields are the pre-update values but its actors map is the shared, possibly
mutated one; Person-collection side effects persist. -/
def movieUpdate (db : DB) (sl : MovieUpdateSlots) : DB × Option JsErr :=
  match lookupA db.movies (jsToStr sl.movieId) with
  | none => (db, some .typeError)
  | some m =>
    match movieUpdateTry m sl db.persons with
    | .ok m2 ps2 =>
      ({ db with
         movies := insertA db.movies (jsToStr sl.movieId) m2
         persons := ps2 }, none)
    | .err _ actsNow ps2 =>
      ({ db with
         movies := insertA db.movies (jsToStr sl.movieId) { m with actors := actsNow }
         persons := ps2 }, none)

/-- The actor loop of `MovieStorage.destroy`:
`PersonStorage.instances[acts].removeCategory(1)` — an ID lookup, so a
dangling actor id raises a `TypeError`; mutations before the throw persist. -/
def actorsRemoveCat1 : List Nat → List (String × PersonObj) →
    List (String × PersonObj) × Option JsErr
  | [], ps => (ps, none)
  | a :: t, ps =>
    match lookupA ps (toString a) with
    | none => (ps, some .typeError)
    | some p =>
      match Person.removeCategory 1 p.categories with
      | .error e => (ps, some e)
      | .ok cs => actorsRemoveCat1 t (updateA ps (toString a) (fun q => { q with categories := cs }))

/-- `MovieStorage.calculateNextId`: one past the running maximum of the stored
movie ids (`-1` when empty, hence `0`). -/
def movieStorageCalculateNextId (db : DB) : DB :=
  let current := db.movies.foldl (fun acc kv => max kv.2.movieId acc) (-1)
  { db with movieNextId := current + 1 }

/-- `MovieStorage.destroy(movieId)`: when present, removes category 0 from the
director (object reference), category 1 from every actor (id lookups), logs
via `toString`, deletes the entry, and recomputes `_nextId` only when the
destroyed id string equals `String(this._nextId)` — which is one PAST the
highest id after a normal add, so the recomputation is not triggered by
destroying the highest record. -/
def movieStorageDestroy (movieId : String) (db : DB) : DB × Option JsErr :=
  match lookupA db.movies movieId with
  | none => (db, none)
  | some m =>
    match removeCatAt db.persons (toString m.director) 0 with
    | .error e => (db, some e)
    | .ok ps1 =>
      match actorsRemoveCat1 m.actors ps1 with
      | (ps2, some e) => ({ db with persons := ps2 }, some e)
      | (ps2, none) =>
        if movieToStringThrows m ps2 then ({ db with persons := ps2 }, some .typeError)
        else
          let db2 := { db with movies := eraseA db.movies movieId, persons := ps2 }
          if movieId = toString db.movieNextId then
            (movieStorageCalculateNextId db2, none)
          else (db2, none)

/-- `MovieStorage.nextId`: recomputes lazily only when the counter is still 0. -/
def movieStorageNextId (db : DB) : Int × DB :=
  if db.movieNextId = 0 then
    let db2 := movieStorageCalculateNextId db
    (db2.movieNextId, db2)
  else (db.movieNextId, db)

/-- `MovieStorage.retrieveAll` over a parsed JSON store: each record is
deserialized and stored; a record that deserializes to `null` makes the
subsequent `movie.movieId` access throw a `TypeError` that propagates to the
caller (the null entry is abandoned with the load half done). -/
def movieStorageRetrieveAll : List (String × MovieRec) → DB → DB × Option JsErr
  | [], db => (db, none)
  | (key, rec) :: t, db =>
    match movieDeserialize rec db.movies db.persons with
    | (some m, ps2) =>
      let db2 : DB :=
        { db with
          movies := insertA db.movies key m
          persons := ps2
          movieNextId := max (m.movieId + 1) db.movieNextId }
      movieStorageRetrieveAll t db2
    | (none, ps2) => ({ db with persons := ps2 }, some .typeError)

/-- `MovieStorage.persist` writes `JSON.stringify(this._instances)`: the
stored image maps each key to the `toJSON` record of its movie. -/
def movieStoragePersist (db : DB) : List (String × MovieRec) :=
  db.movies.map (fun kv => (kv.1, movieToJSON kv.2))

/-! ### PersonStorage (assignment6 `src/m/PersonStorage.js`) -/

/-- `PersonStorage.add`: the Person constructor never throws (it stores the
raw slots), so the record is ALWAYS inserted under `String(personId)` —
overwriting any record already stored under that id — and `_nextId` becomes
`personId + 1`; the final `person.toString()` log throws a `TypeError` when
the person's agent id does not resolve. -/
def personStorageAdd (sl : PersonSlots) (db : DB) : DB × Option JsErr :=
  let person := personConstruct sl
  let key := jsToStr person.personId
  let ps1 := insertA db.persons key person
  let nid : Int :=
    match person.personId with
    | .num n => n + 1
    | .str s => if isIntString s then strToInt s + 1 else db.personNextId
    | _ => db.personNextId
  -- (a non-numeric id would set the counter to NaN; outside the modelled domain)
  let db1 := { db with persons := ps1, personNextId := nid }
  if Person.toStringThrows person ps1 then (db1, some .typeError) else (db1, none)

/-- `PersonStorage.calculateNextId`: one past the running maximum of the
stored person ids (ids read from the raw `_personId` fields, numeric in every
modelled state). -/
def personStorageCalculateNextId (db : DB) : DB :=
  let current := db.persons.foldl (fun acc kv => max (intValOfJs kv.2.personId) acc) (-1)
  { db with personNextId := current + 1 }

/-- `PersonStorage.nextId`. -/
def personStorageNextId (db : DB) : Int × DB :=
  if db.personNextId = 0 then
    let db2 := personStorageCalculateNextId db
    (db2.personNextId, db2)
  else (db.personNextId, db)

/-- `PersonStorage.destroy(personId)` of the assignment6 revision: the
documented `onDestroy` cascade call is COMMENTED OUT, so the Movie collection
is never touched.  The method only removes the Agent tag from this person's
agent (an id lookup that throws on a dangling agent), clears string-valued
`agent` back-references when this person carries the Agent tag, logs, deletes
the record, and runs the same never-firing `_nextId` recomputation guard as
`MovieStorage.destroy`. -/
def personStorageDestroy (personId : String) (db : DB) : DB × Option JsErr :=
  match lookupA db.persons personId with
  | none => (db, none)
  | some p =>
    match (if jsTruthy p.agent then
             match lookupA db.persons (jsToStr p.agent) with
             | none => Except.error JsErr.typeError
             | some q =>
               (Person.removeCategory 2 q.categories).map
                 (fun cs => updateA db.persons (jsToStr p.agent)
                   (fun r => { r with categories := cs }))
           else Except.ok db.persons) with
    | .error e => (db, some e)
    | .ok ps1 =>
      -- `person.agent === personId` compares the raw agent value with the
      -- STRING parameter strictly, so only string-valued agents can match.
      let ps2 := if p.categories.contains 2 then
          ps1.map (fun kv =>
            if (match kv.2.agent with | .str s => s == personId | _ => false) then
              (kv.1, { kv.2 with agent := JsV.nullV })
            else kv)
        else ps1
      if Person.toStringThrows p ps2 then ({ db with persons := ps2 }, some .typeError)
      else
        let db2 := { db with persons := eraseA ps2 personId }
        if personId = toString db.personNextId then
          (personStorageCalculateNextId db2, none)
        else (db2, none)

/-! ### Concrete fixtures used by the claim theorems -/

/-- A person as created by a valid `{personId, name}` slot bag. -/
def personFx (i : Int) (nm : String) : PersonObj :=
  { personId := .num i, name := .str nm, categories := [], agent := .nullV }

/-- The state of a fresh application (both repositories empty, counters 0). -/
def emptyDB : DB :=
  { movies := [], persons := [], movieNextId := 0, personNextId := 0 }

/-- A stored TvSeriesEpisode movie (the only constructible movie shape). -/
def movieT : MovieObj :=
  { movieId := 1, title := "T", releaseDate := some 0, director := 1, actors := [],
    category := .numV 2, about := none, tvSeriesName := some "S", episodeNo := some 3 }

/-- State with movie 1 (no actors) and persons 1, 2. -/
def dbC1 : DB :=
  { movies := [("1", movieT)],
    persons := [("1", personFx 1 "A"), ("2", personFx 2 "B")],
    movieNextId := 2, personNextId := 3 }

/-- An update bag: everything equal to the stored movie 1 except a new actor
to add and a DIFFERENT category (2 → 1), which violates the frozen-value
rule after the actor was already added. -/
def slotsC1 : MovieUpdateSlots :=
  { movieId := .num 1, title := .str "T", releaseDate := some 0, director := .num 1,
    actorsToAdd := some [.byId (.num 2)], actorsToRemove := none,
    category := .num 1, about := none, episodeNo := .num 3, tvSeriesName := some "S" }

/-- State with persons 1 and 2 and no movies. -/
def dbC7 : DB :=
  { movies := [], persons := [("1", personFx 1 "A"), ("2", personFx 2 "B")],
    movieNextId := 0, personNextId := 3 }

/-- The plain-movie slot bag of spec §8
(`{movieId: 1, title: "X", director: 1, actors: [2]}` plus a release date):
valid by the spec's data model, carrying no category-dependent field. -/
def plainBag : MovieSlots :=
  { movieId := .num 1, title := .str "X", releaseDate := some 0, director := .num 1,
    actors := some [.byId (.num 2)], category := .undef, about := none,
    tvSeriesName := none, episodeNo := .undef }

/-- A fully valid TvSeriesEpisode slot bag. -/
def episodeBag : MovieSlots :=
  { movieId := .num 1, title := .str "X", releaseDate := some 0, director := .num 1,
    actors := some [.byId (.num 2)], category := .num 2, about := none,
    tvSeriesName := some "S", episodeNo := .num 3 }

/-- The movie that `add episodeBag` stores. -/
def movieX : MovieObj :=
  { movieId := 1, title := "X", releaseDate := some 0, director := 1, actors := [2],
    category := .numV 2, about := none, tvSeriesName := some "S", episodeNo := some 3 }

/-- A stored TvSeriesEpisode movie with a given id and no actors. -/
def movieD (i : Int) : MovieObj :=
  { movieId := i, title := "T", releaseDate := some 0, director := 1, actors := [],
    category := .numV 2, about := none, tvSeriesName := some "S", episodeNo := some 3 }

/-- State with movies 3 and 5 and the id counter at 6 (the value the adds left
behind: one past the highest id). -/
def dbC8 : DB :=
  { movies := [("3", movieD 3), ("5", movieD 5)],
    persons := [("1", { personId := .num 1, name := .str "A", categories := [0],
                        agent := .nullV })],
    movieNextId := 6, personNextId := 2 }

/-- A movie directed by person 1 with person 2 in the actor set. -/
def movieM1 : MovieObj :=
  { movieId := 1, title := "M", releaseDate := some 0, director := 1, actors := [2],
    category := .numV 2, about := none, tvSeriesName := some "S", episodeNo := some 3 }

/-- State with `movieM1` and persons 1 (its director) and 2 (its actor). -/
def dbC2 : DB :=
  { movies := [("1", movieM1)],
    persons := [("1", personFx 1 "A"), ("2", personFx 2 "B")],
    movieNextId := 2, personNextId := 3 }

/-- A valid person slot bag with id 1 and name "A". -/
def slotsPA : PersonSlots :=
  { personId := .num 1, name := .str "A", categories := none, agent := .undef }

/-- A person slot bag with the SAME id 1 but name "B". -/
def slotsPB : PersonSlots :=
  { personId := .num 1, name := .str "B", categories := none, agent := .undef }

/-- An invalid person slot bag: negative id and empty name. -/
def slotsBad : PersonSlots :=
  { personId := .num (-5), name := .str "", categories := none, agent := .undef }

/-! ### Claim theorems -/

/-- C1 — the update rollback is NOT atomic: on `dbC1`, the update bag
`slotsC1` first adds actor 2 to movie 1 and then throws
`FrozenValueConstraintViolation` at the category change; the violation is
caught and the pre-update snapshot is restored, the call returns normally —
but the restored record still contains the added actor, because the
`cloneObject` snapshot shares the `_actors` object with the live movie.  The
stored record is NOT restored exactly to its pre-call state. -/
theorem c1_rollback_keeps_actor_addition :
    movieT.actors = [] ∧
    movieUpdateTry movieT slotsC1 dbC1.persons =
      .err (.violation .frozenValue) [2]
        [("1", personFx 1 "A"), ("2", { personFx 2 "B" with categories := [1] })] ∧
    (movieUpdate dbC1 slotsC1).2 = none ∧
    lookupA (movieUpdate dbC1 slotsC1).1.movies "1" =
      some { movieT with actors := [2] } := by
  decide

/-- C2 — `PersonStorage.destroy` of the assignment6 revision performs NO
movie cascade (its documented `onDestroy` call is commented out): destroying
person 1, the sole director of movie 1, deletes the person but leaves movie 1
in the collection (`contains(1)` stays true) with a dangling director
reference, contradicting the claimed cascade delete. -/
theorem c2_destroy_director_leaves_movie :
    (personStorageDestroy "1" dbC2).2 = none ∧
    (personStorageDestroy "1" dbC2).1.movies = dbC2.movies ∧
    Movie.storageContains (personStorageDestroy "1" dbC2).1.movies (.num 1) = true ∧
    lookupA (personStorageDestroy "1" dbC2).1.persons "1" = none ∧
    (lookupA (personStorageDestroy "1" dbC2).1.movies "1").map MovieObj.director =
      some 1 := by
  decide

/-- C4 — duplicate-id `add`: for movies the constructor throws
`UniquenessConstraintViolation` before any side effect, so the call is a
no-op (the state is returned unchanged); but for persons the constructor
performs NO validation, so `add` with the id of a stored person OVERWRITES
that record (same size, new field values). -/
theorem c4_duplicate_add_movie_noop_person_overwrites :
    movieStorageAdd { episodeBag with title := .str "B" }
        (movieStorageAdd episodeBag dbC7).1 =
      ((movieStorageAdd episodeBag dbC7).1, none) ∧
    lookupA (movieStorageAdd episodeBag dbC7).1.movies "1" = some movieX ∧
    (personStorageAdd slotsPB (personStorageAdd slotsPA emptyDB).1).1.persons =
      [("1", personFx 1 "B")] ∧
    (personStorageAdd slotsPA emptyDB).1.persons = [("1", personFx 1 "A")] := by
  decide

/-- C5 — the Person constructor does not validate: on the slot bag
`{personId: -5, name: ""}` it returns a Person object holding the raw invalid
values instead of throwing, although the class's own validators flag both
fields (`checkPersonId(-5)` an IntervalConstraintViolation,
`checkName("")` a MandatoryValueConstraintViolation). -/
theorem c5_person_constructor_skips_validation :
    personConstruct slotsBad =
      { personId := .num (-5), name := .str "", categories := [], agent := .nullV } ∧
    Person.checkPersonId (.num (-5)) = .interval ∧
    Person.checkName (.str "") = .mandatoryValue := by
  decide

/-- C7 — the add / persist / retrieveAll round trip fails: (a) the
spec-valid plain movie bag is never inserted (`checkTvSeriesName` evaluates
`undefined.trim()`, a TypeError caught by `add`), so `contains(1)` stays
false; (b) a fully valid TvSeriesEpisode IS inserted, but deserializing its
own `toJSON` record yields `null` (the category-dependent fields are not
passed to the constructor, which then throws), and `retrieveAll` over the
persisted store throws a TypeError on `null.movieId`. -/
theorem c7_movie_add_and_roundtrip_fail :
    (movieStorageAdd plainBag dbC7).2 = none ∧
    Movie.storageContains (movieStorageAdd plainBag dbC7).1.movies (.num 1) = false ∧
    movieStorageAdd episodeBag dbC7 =
      ({ dbC7 with movies := [("1", movieX)],
                   persons := [("1", personFx 1 "A"),
                               ("2", { personFx 2 "B" with categories := [1] })],
                   movieNextId := 2 }, none) ∧
    (movieDeserialize (movieToJSON movieX) [] dbC7.persons).1 = none ∧
    (movieStorageRetrieveAll
        (movieStoragePersist { emptyDB with movies := [("1", movieX)] })
        dbC7).2 = some .typeError := by
  decide

/-- C8 — after destroying the record with the highest id (5) from `dbC8`
(ids 3 and 5, counter 6), the recomputation guard `movieId ===
this._nextId.toString()` compares "5" with "6" and does not fire, so
`nextId()` returns the stale counter 6 — not 4, one past the highest
remaining id, which is what `calculateNextId` would produce. -/
theorem c8_nextid_stale_after_destroy_highest :
    (movieStorageDestroy "5" dbC8).2 = none ∧
    keysA (movieStorageDestroy "5" dbC8).1.movies = ["3"] ∧
    (movieStorageNextId (movieStorageDestroy "5" dbC8).1).1 = 6 ∧
    (movieStorageCalculateNextId (movieStorageDestroy "5" dbC8).1).movieNextId = 4 ∧
    (movieStorageNextId (movieStorageDestroy "5" dbC8).1).1 ≠
      (movieStorageCalculateNextId (movieStorageDestroy "5" dbC8).1).movieNextId := by
  decide

/-- C9 — the id checks use `parseStringInteger(id) < 0`, so the id 0 passes
every branch and `NoConstraintViolation` is returned (for both Movie and
Person), although negative integers are rejected with an
IntervalConstraintViolation; the claim that 0 is rejected fails at 0. -/
theorem c9_id_checks_accept_zero :
    Movie.checkMovieId (.num 0) [] = .noConstraintViolation ∧
    Movie.checkMovieId (.num (-1)) [] = .interval ∧
    Person.checkPersonId (.num 0) = .noConstraintViolation ∧
    Person.checkPersonId (.num (-1)) = .interval := by
  decide

/-- C3 counterexample — assigning the SAME category value again through the
category setter is not a no-op: on a movie whose category is already 2,
`movie.category = 2` throws `FrozenValueConstraintViolation` (the setter
rejects every re-assignment without comparing values). -/
theorem c3_counterexample_setter_same_value_throws :
    movieT.category = .numV 2 ∧
    movieSetCategory movieT (.num 2) = .error (.violation .frozenValue) := by
  decide

/-- C6 counterexample — `MovieStorage.update` with a movieId that is not in
the collection does NOT return normally: `cloneObject(undefined)` throws a
`TypeError` before the `try` block, and the exception reaches the caller. -/
theorem c6_counterexample_update_absent_id_throws :
    movieUpdate emptyDB slotsC1 = (emptyDB, some .typeError) := by
  decide

/-! ### Lemmas for the universally quantified claim theorems -/

theorem containsKeyA_of_lookupA {α : Type} (l : List (String × α)) (k : String) (v : α)
    (h : lookupA l k = some v) : containsKeyA l k = true := by
  induction l with
  | nil => simp [lookupA] at h
  | cons hd t ih =>
    obtain ⟨k0, v0⟩ := hd
    by_cases hk : k0 = k
    · simp [containsKeyA, keysA, hk]
    · simp only [lookupA, if_neg hk] at h
      have h2 := ih h
      simp only [containsKeyA, keysA] at h2 ⊢
      simp only [List.map_cons, List.contains_cons]
      have h3 : k ∈ List.map Prod.fst t := by simpa using h2
      obtain ⟨p, hp, hpk⟩ := List.mem_map.mp h3
      obtain ⟨p1, p2⟩ := p
      simp only at hpk
      subst hpk
      simp
      right
      exact ⟨p2, hp⟩

theorem mem_actorsInsert_self (l : List Nat) (k : Nat) : k ∈ actorsInsert l k := by
  induction l with
  | nil => simp [actorsInsert]
  | cons h t ih =>
    by_cases hk : k = h
    · simp [actorsInsert, hk]
    · by_cases hlt : k < h
      · simp [actorsInsert, hk, hlt]
      · simp [actorsInsert, hk, hlt, ih]

theorem addCategory_one_spec (cats : List Int) :
    (∀ c ∈ cats, c ∈ Person.addCategory 1 cats) ∧
    (Person.addCategory 1 cats = cats ∨ Person.addCategory 1 cats = cats ++ [1]) ∧
    (1 : Int) ∈ Person.addCategory 1 cats := by
  have hc : Person.checkCategory 1 = .noConstraintViolation := by decide
  unfold Person.addCategory
  rw [hc]
  by_cases h : cats.contains 1 = true
  · rw [if_pos h]
    exact ⟨fun c hc2 => hc2, Or.inl rfl, by simpa using h⟩
  · rw [if_neg h]
    exact ⟨fun c hc2 => List.mem_append_left _ hc2, Or.inr rfl,
      List.mem_append_right _ (by simp)⟩

theorem updTitle_category (sl : MovieUpdateSlots) (m m2 : MovieObj)
    (h : updTitle sl m = .ok m2) : m2.category = m.category := by
  unfold updTitle at h
  split at h
  · injection h with h2
    rw [← h2]
  · split at h
    · injection h with h2
      rw [← h2]
    · exact absurd h (by simp)

theorem updDate_category (sl : MovieUpdateSlots) (m m2 : MovieObj)
    (h : updDate sl m = .ok m2) : m2.category = m.category := by
  unfold updDate at h
  split at h
  · injection h with h2
    rw [← h2]
  · split at h
    · injection h with h2
      rw [← h2]
    · exact absurd h (by simp)

theorem updDirector_category (sl : MovieUpdateSlots) (m m2 : MovieObj)
    (ps ps2 : List (String × PersonObj))
    (h : updDirector sl m ps = (.ok m2, ps2)) : m2.category = m.category := by
  unfold updDirector at h
  split at h
  · injection h with h1 h2
    injection h1 with h3
    rw [← h3]
  · split at h
    · injection h with h1 h2
      exact absurd h1 (by simp)
    · split at h
      · injection h with h1 h2
        injection h1 with h3
        rw [← h3]
      · injection h with h1 h2
        exact absurd h1 (by simp)

theorem updateCategoryStep_frozen (v : JsV) (cur c2 : CatVal)
    (hcat : catTruthy cur = true)
    (h : updateCategoryStep v cur = .ok c2) : c2 = cur := by
  unfold updateCategoryStep at h
  split at h
  · cases cur with
    | undefV => simp [catTruthy] at hcat
    | nanV =>
      simp only at h
      split at h
      · injection h with h2
        rw [← h2]
      · exact absurd h (by simp)
    | numV n =>
      simp only at h
      split at h
      · injection h with h2
        rw [← h2]
      · exact absurd h (by simp)
  · split at h
    · exact absurd h (by simp)
    · injection h with h2
      rw [← h2]

theorem updAbout_category (sl : MovieUpdateSlots) (m m2 : MovieObj)
    (ps : List (String × PersonObj))
    (h : updAbout sl m ps = .ok m2) : m2.category = m.category := by
  unfold updAbout at h
  split at h
  · injection h with h2
    rw [← h2]
  · split at h
    · injection h with h2
      rw [← h2]
    · exact absurd h (by simp)

theorem updEpisodeNo_category (sl : MovieUpdateSlots) (m m2 : MovieObj)
    (h : updEpisodeNo sl m = .ok m2) : m2.category = m.category := by
  unfold updEpisodeNo at h
  split at h
  · injection h with h2
    rw [← h2]
  · split at h
    · injection h with h2
      rw [← h2]
    · exact absurd h (by simp)

theorem updTv_category (sl : MovieUpdateSlots) (m m2 : MovieObj)
    (h : updTv sl m = .ok m2) : m2.category = m.category := by
  unfold updTv at h
  split at h
  · injection h with h2
    rw [← h2]
  · split at h
    · exact absurd h (by simp)
    · injection h with h2
      rw [← h2]
    · exact absurd h (by simp)


theorem movieUpdateTry_ok_category (m0 : MovieObj) (sl : MovieUpdateSlots)
    (ps0 : List (String × PersonObj)) (m2 : MovieObj)
    (ps2 : List (String × PersonObj))
    (hcat : catTruthy m0.category = true)
    (h : movieUpdateTry m0 sl ps0 = .ok m2 ps2) : m2.category = m0.category := by
  unfold movieUpdateTry at h
  split at h
  next e heq1 => exact absurd h (by simp)
  next m1 heq1 =>
  split at h
  next e heq2 => exact absurd h (by simp)
  next mB heq2 =>
  split at h
  next e ps1 heq3 => exact absurd h (by simp)
  next m3 ps1 heq3 =>
  split at h
  next e acts psX heq4 => exact absurd h (by simp)
  next acts1 psX heq4 =>
  split at h
  next e acts psY heq5 => exact absurd h (by simp)
  next acts2 psY heq5 =>
  split at h
  next e heq6 => exact absurd h (by simp)
  next cat1 heq6 =>
  split at h
  next e heq7 => exact absurd h (by simp)
  next m7 heq7 =>
  split at h
  next e heq8 => exact absurd h (by simp)
  next m8 heq8 =>
  split at h
  next e heq9 => exact absurd h (by simp)
  next m9 heq9 =>
  injection h with hA hB
  have c1 : m1.category = m0.category := updTitle_category sl m0 m1 heq1
  have c2 : mB.category = m1.category := updDate_category sl m1 mB heq2
  have c3 : m3.category = mB.category := updDirector_category sl mB m3 ps0 ps1 heq3
  have c6 : cat1 = m3.category := by
    apply updateCategoryStep_frozen sl.category m3.category cat1 _ heq6
    rw [c3, c2, c1]
    exact hcat
  have c7 : m7.category = cat1 := by
    have := updAbout_category sl { m3 with actors := acts2, category := cat1 } m7 psY heq7
    simpa using this
  have c8 : m8.category = m7.category := updEpisodeNo_category sl m7 m8 heq8
  have c9 : m9.category = m8.category := updTv_category sl m8 m9 heq9
  rw [← hA, c9, c8, c7, c6, c3, c2, c1]

/-- C3 amended — once a movie's category holds a truthy value `c`:
(1) the category SETTER throws `FrozenValueConstraintViolation` on EVERY
assignment, equal or different (so re-assigning the same value is not a
no-op); (2) the category block of `MovieStorage.update` accepts the same
value `c` again without raising anything and leaves the category unchanged;
(3) after any `MovieStorage.update` call on that movie — succeeding, or
rolling back after a violation such as a different or cleared category — the
stored record's category is still `c`. -/
theorem c3_amended_category_frozen (m : MovieObj) (c : Int)
    (hc : m.category = .numV c) (h0 : c ≠ 0) :
    (∀ v, movieSetCategory m v = .error (.violation .frozenValue)) ∧
    updateCategoryStep (.num c) m.category = .ok m.category ∧
    (∀ (db : DB) (sl : MovieUpdateSlots) (m2 : MovieObj),
      lookupA db.movies (jsToStr sl.movieId) = some m →
      lookupA (movieUpdate db sl).1.movies (jsToStr sl.movieId) = some m2 →
      m2.category = m.category) := by
  have hcat : catTruthy m.category = true := by rw [hc]; simp [catTruthy, h0]
  refine ⟨?_, ?_, ?_⟩
  · intro v
    simp [movieSetCategory, setCategoryVal, hcat, Except.map]
  · rw [hc]
    simp [updateCategoryStep, jsTruthy, h0]
  · intro db sl m2 hl hl2
    unfold movieUpdate at hl2
    split at hl2
    next heq0 => rw [hl] at heq0; exact absurd heq0 (by simp)
    next mm heq0 =>
      rw [hl] at heq0
      injection heq0 with hmm
      subst hmm
      split at hl2
      next m9 ps9 heqT =>
        rw [lookupA_insertA_self] at hl2
        injection hl2 with h9
        rw [← h9]
        exact movieUpdateTry_ok_category m sl db.persons m9 ps9 hcat heqT
      next e actsNow ps9 heqT =>
        rw [lookupA_insertA_self] at hl2
        injection hl2 with h9
        rw [← h9]

/-- C3 amended witness — the theorem applied to a concrete movie with
category 2: the setter rejects a re-assignment (here of 1), and the update
category block accepts 2 again silently. -/
theorem c3_amended_category_frozen_witness :
    movieSetCategory movieT (.num 1) = .error (.violation .frozenValue) ∧
    updateCategoryStep (.num 2) movieT.category = .ok movieT.category := by
  have h := c3_amended_category_frozen movieT 2 rfl (by decide)
  exact ⟨h.1 (.num 1), h.2.1⟩

/-- C6 amended — `MovieStorage.update` with a movieId that IS present in the
collection always returns normally: every exception raised while applying
the diff is caught by the `catch` block (the `TypeError` of the missing-id
case arises before the `try`). -/
theorem c6_amended_update_present_id_returns_normally (db : DB)
    (sl : MovieUpdateSlots)
    (h : Movie.storageContains db.movies sl.movieId = true) :
    (movieUpdate db sl).2 = none := by
  unfold Movie.storageContains at h
  have h2 := lookupA_isSome_of_containsKeyA db.movies (jsToStr sl.movieId) h
  obtain ⟨m, hm⟩ := Option.isSome_iff_exists.mp h2
  unfold movieUpdate
  split
  next heq => rw [hm] at heq; exact absurd heq (by simp)
  next mm heq =>
    split
    next m9 ps9 heqT => rfl
    next e actsNow ps9 heqT => rfl

/-- C6 amended witness — the theorem applied to the concrete state `dbC1`
and the failing bag `slotsC1`: movie 1 is present, so the call returns
normally (even though the frozen-category violation is thrown and caught
inside). -/
theorem c6_amended_update_present_id_returns_normally_witness :
    (movieUpdate dbC1 slotsC1).2 = none :=
  c6_amended_update_present_id_returns_normally dbC1 slotsC1 (by decide)

/-- C10 — for a person `p` (with positive id `pid` present in the Person
collection) listed in a movie's actor set: `removeActor(p)` deletes the
`_actors` entry but then calls `addCategory(1)` on the person — NOT
`removeCategory` — so the person's category tag list keeps every tag it had
and is either unchanged or grows by the "Actor" tag 1; `addActor(p)` inserts
the actors-map entry and also adds tag 1. -/
theorem c10_removeActor_adds_actor_tag
    (m : MovieObj) (p q : PersonObj) (pid : Nat)
    (ps : List (String × PersonObj))
    (hpid : p.personId = .num (pid : Int))
    (hpos : 1 ≤ pid)
    (hq : lookupA ps (jsToStr (.num (pid : Int))) = some q)
    (hmem : pid ∈ m.actors) :
    movieRemoveActor m (.byRef p) ps =
      .ok ({ m with actors := m.actors.erase pid },
        updateA ps (jsToStr (.num (pid : Int)))
          (fun r => { r with categories := Person.addCategory 1 r.categories })) ∧
    lookupA (updateA ps (jsToStr (.num (pid : Int)))
        (fun r => { r with categories := Person.addCategory 1 r.categories }))
        (jsToStr (.num (pid : Int))) =
      some { q with categories := Person.addCategory 1 q.categories } ∧
    (∀ c ∈ q.categories, c ∈ Person.addCategory 1 q.categories) ∧
    (Person.addCategory 1 q.categories = q.categories ∨
      Person.addCategory 1 q.categories = q.categories ++ [1]) ∧
    movieAddActor m (.byRef p) ps =
      .ok ({ m with actors := actorsInsert m.actors pid },
        updateA ps (jsToStr (.num (pid : Int)))
          (fun r => { r with categories := Person.addCategory 1 r.categories })) ∧
    pid ∈ actorsInsert m.actors pid ∧
    (1 : Int) ∈ Person.addCategory 1 q.categories ∧
    (m.actors.erase pid).length = m.actors.length - 1 := by
  have hkey := containsKeyA_of_lookupA ps (jsToStr (.num (pid : Int))) q hq
  have htr : jsTruthy (.num (pid : Int)) = true := by
    simp only [jsTruthy]
    simp only [ne_eq, decide_eq_true_eq]
    omega
  have hchk : Movie.checkActor (.num (pid : Int)) ps = .noConstraintViolation := by
    unfold Movie.checkActor Person.checkPersonIdAsIdRef Person.checkPersonId
      Person.storageContains
    have hlt : ¬ (intValOfJs (.num (pid : Int)) < 0) := by
      simp [intValOfJs]
    rw [if_neg (by simp [htr])]
    rw [if_neg (by simp [isIntegerOrIntegerString])]
    rw [if_neg hlt]
    simp [hkey]
  have hnat : natKeyOf (.num (pid : Int)) = pid := by
    simp [natKeyOf, intValOfJs]
  have hspec := addCategory_one_spec q.categories
  refine ⟨?_, ?_, hspec.1, hspec.2.1, ?_, mem_actorsInsert_self m.actors pid,
    hspec.2.2, List.length_erase_of_mem hmem⟩
  · unfold movieRemoveActor removeActorStep
    simp only [actorIdOf, hpid, hchk, hnat, Except.map]
  · rw [lookupA_updateA_self, hq]
    rfl
  · unfold movieAddActor addActorStep
    simp only [actorIdOf, hpid, hchk, hnat]
    rw [if_pos (by simp [htr])]
    simp [Except.map]

/-- C10 witness — the theorem applied to the concrete state `dbC2`: person 2
is in movie 1's actor set; removing them deletes the actors-map entry while
ADDING the Actor tag 1 to person 2. -/
theorem c10_removeActor_adds_actor_tag_witness :
    movieRemoveActor movieM1 (.byRef (personFx 2 "B")) dbC2.persons =
      .ok ({ movieM1 with actors := movieM1.actors.erase 2 },
        updateA dbC2.persons (jsToStr (.num ((2 : Nat) : Int)))
          (fun r => { r with categories := Person.addCategory 1 r.categories })) ∧
    (∀ c ∈ (personFx 2 "B").categories,
      c ∈ Person.addCategory 1 (personFx 2 "B").categories) := by
  have h := c10_removeActor_adds_actor_tag movieM1 (personFx 2 "B") (personFx 2 "B")
    2 dbC2.persons rfl (by decide) (by decide) (by decide)
  exact ⟨h.1, h.2.2.1⟩
